import Mathlib

/-!
# Grid HMC modules (`lib/qcd/modules/Modules.h`)

A shallow embedding of the loadable-module machinery: the `Parametrized`
configuration holder, the lazily built `ActionModule` / `ObservableModule`
adapters with their two concrete instances (`WilsonGModule`, `PlaquetteMod`),
and the `Registrar` that enters a builder into a factory.

Conventions of the embedding

* C++ objects are records; a member function takes the object and returns the
  updated object (explicit state passing).
* A C++ exception in flight is an `Except.error`; the state reached when it was
  raised is returned next to it, so a caller that catches it can go on.
* The free store is a counter of addresses handed out so far; a pointer is an
  address together with the object it points to, and the null pointer is `none`.
* `World.initialize_calls` and `World.builder_calls` are ghost counters: they
  are written only at the call sites of the build step and of a builder, and
  no modelled code reads them.
-/

namespace Grid

/-! ## Exceptions, free store, pointers -/

/-- Exceptions in flight. The header raises none itself: `foreign` stands for
whatever a collaborator (reader, product constructor, build step) throws; the
four named cases are the taxonomy of the design document. Of these only
`UnknownModuleError` is ever raised here, by the factory's `create`, which is
modelled from that document. -/
inductive Failure where
  | ConfigurationError
  | UnknownModuleError
  | DuplicateRegistrationError
  | ModuleInitializationError
  | foreign (what : String)
  deriving DecidableEq, Repr

/-- The free store: `next` is the first address never handed out. -/
structure Heap where
  next : Nat
  deriving DecidableEq, Repr

/-- A non-null pointer: the address and the object living there. -/
structure Ptr (T : Type) where
  addr : Nat
  obj : T
  deriving DecidableEq, Repr

/-- A raw pointer `T*`; `none` is `nullptr`. -/
abbrev RawPtr (T : Type) := Option (Ptr T)

/-- The C++ expression `new T(...)`, given the constructed object: it lives at a
fresh address. Running out of memory is not modelled. -/
def Heap.opNew {T : Type} (h : Heap) (x : T) : Ptr T × Heap :=
  (⟨h.next, x⟩, ⟨h.next + 1⟩)

/-- The class `std::unique_ptr<T>`: owns at most one object. -/
structure unique_ptr (T : Type) where
  ptr : RawPtr T
  deriving DecidableEq, Repr

/-- Default construction of `std::unique_ptr<T>`: owns nothing. -/
def unique_ptr.empty {T : Type} : unique_ptr T := ⟨none⟩

/-- Conversion `explicit operator bool`: true when an object is owned. -/
def unique_ptr.toBool {T : Type} (u : unique_ptr T) : Bool := u.ptr.isSome

/-- Member `get()`: the stored pointer, ownership stays with `u`. -/
def unique_ptr.get {T : Type} (u : unique_ptr T) : RawPtr T := u.ptr

/-- Member `reset(p)`: drop the owned object, if any, and own `p` instead. -/
def unique_ptr.reset {T : Type} (_u : unique_ptr T) (p : RawPtr T) : unique_ptr T := ⟨p⟩

/-- The type `RealD` (a C++ `double`), carried as its IEEE-754 binary64 bit
pattern: the header only copies such values, it never computes with them. -/
structure RealD where
  bits : Nat
  deriving DecidableEq, Repr

/-- Ghost-instrumented surroundings of a call: the free store and two counters
of calls made so far. -/
structure World where
  heap : Heap
  initialize_calls : Nat
  builder_calls : Nat
  deriving DecidableEq, Repr

/-! ## External collaborators taken as parameters -/

/-- The serialisation call `read(Reader, section_name, output)` of the reader
library, which is outside this header: from the reader, the section name and
the current content of `output` it yields the new content of `output` (or
throws) and the reader afterwards. -/
abbrev ReadFn (R P : Type) := R → String → P → Except Failure P × R

/-! ## `Parametrized<P>` -/

/-- The class `Parametrized<P>`: the protected `Par_` and the private, never
assigned `section_name`. -/
structure Parametrized (P : Type) where
  Par_ : P
  section_name : String
  deriving DecidableEq, Repr

/-- Constructor `Parametrized(Parameters Par) : Par_(Par)`. -/
def Parametrized.fromPar {P : Type} (Par : P) : Parametrized P :=
  { Par_ := Par, section_name := "" }

/-- Constructor `Parametrized(Reader<ReaderClass>& Reader, std::string section_name)`:
`Par_` is default-constructed and then handed to `read` as the output. -/
def Parametrized.fromReader {R P : Type} [Inhabited P] (read : ReadFn R P)
    (Reader : R) (section_name : String) : Except Failure (Parametrized P) × R :=
  match read Reader section_name default with
  | (.ok Par, Reader') => (.ok { Par_ := Par, section_name := "" }, Reader')
  | (.error e, Reader') => (.error e, Reader')

/-- The default argument of the reader constructor, `section_name = "parameters"`. -/
def Parametrized.default_section_name : String := "parameters"

/-- Member `set_parameters(Parameters Par)`: the assignment `Par_ = Par`. -/
def Parametrized.set_parameters {P : Type} (self : Parametrized P) (Par : P) : Parametrized P :=
  { self with Par_ := Par }

/-! ## `ActionModule<ActionType, APar>` -/

/-- The class `ActionModule`: a `Parametrized<APar>` plus the owning `ActionPtr`. -/
structure ActionModule (ActionType APar : Type) extends Parametrized APar where
  ActionPtr : unique_ptr ActionType

/-- A build step: the body of a subclass's `initialize()` override. It acts on
the module and the free store and either returns or throws. -/
abbrev BuildStep (M : Type) := M → Heap → Except Failure Unit × M × Heap

/-- Constructor `ActionModule(APar Par) : Parametrized<APar>(Par)`; the member
`ActionPtr` is default-constructed. -/
def ActionModule.fromPar {A P : Type} (Par : P) : ActionModule A P :=
  { toParametrized := Parametrized.fromPar Par, ActionPtr := unique_ptr.empty }

/-- Constructor `ActionModule(Reader<ReaderClass>& Reader) : Parametrized<APar>(Reader)`. -/
def ActionModule.fromReader {R A P : Type} [Inhabited P] (read : ReadFn R P)
    (Reader : R) : Except Failure (ActionModule A P) × R :=
  match Parametrized.fromReader read Reader Parametrized.default_section_name with
  | (.ok base, Reader') => (.ok { toParametrized := base, ActionPtr := unique_ptr.empty }, Reader')
  | (.error e, Reader') => (.error e, Reader')

/-- Inherited member `set_parameters` on an `ActionModule`. -/
def ActionModule.set_parameters {A P : Type} (self : ActionModule A P) (Par : P) :
    ActionModule A P :=
  { self with toParametrized := self.toParametrized.set_parameters Par }

/-- Member `ActionModule::getPtr`:
`if (!ActionPtr) initialize(); return ActionPtr.get();`
with the virtual `initialize` passed as `initialize_`. -/
def ActionModule.getPtr {A P : Type} (initialize_ : BuildStep (ActionModule A P))
    (self : ActionModule A P) (w : World) :
    Except Failure (RawPtr A) × ActionModule A P × World :=
  if !self.ActionPtr.toBool then
    match initialize_ self w.heap with
    | (.ok (), self', h') =>
      (.ok self'.ActionPtr.get, self',
        { w with heap := h', initialize_calls := w.initialize_calls + 1 })
    | (.error e, self', h') =>
      (.error e, self',
        { w with heap := h', initialize_calls := w.initialize_calls + 1 })
  else
    (.ok self.ActionPtr.get, self, w)

/-- A driver calling `getPtr()` `n` times in a row on one module, catching
whatever a call throws; the results are listed in call order. -/
def ActionModule.getPtr_times {A P : Type} (initialize_ : BuildStep (ActionModule A P)) :
    Nat → ActionModule A P → World →
      List (Except Failure (RawPtr A)) × ActionModule A P × World
  | 0, self, w => ([], self, w)
  | n + 1, self, w =>
    match ActionModule.getPtr initialize_ self w with
    | (r, self', w') =>
      match ActionModule.getPtr_times initialize_ n self' w' with
      | (rs, self'', w'') => (r :: rs, self'', w'')

/-! ## `ObservableModule<ObservableType, OPar>` -/

/-- The class `ObservableModule`: a `Parametrized<OPar>` plus the owning
`ObservablePtr`. -/
structure ObservableModule (ObservableType OPar : Type) extends Parametrized OPar where
  ObservablePtr : unique_ptr ObservableType

/-- Constructor `ObservableModule(OPar Par) : Parametrized<OPar>(Par)`. -/
def ObservableModule.fromPar {O P : Type} (Par : P) : ObservableModule O P :=
  { toParametrized := Parametrized.fromPar Par, ObservablePtr := unique_ptr.empty }

/-- Constructor `ObservableModule(Reader<ReaderClass>& Reader) : Parametrized<OPar>(Reader)`. -/
def ObservableModule.fromReader {R O P : Type} [Inhabited P] (read : ReadFn R P)
    (Reader : R) : Except Failure (ObservableModule O P) × R :=
  match Parametrized.fromReader read Reader Parametrized.default_section_name with
  | (.ok base, Reader') =>
    (.ok { toParametrized := base, ObservablePtr := unique_ptr.empty }, Reader')
  | (.error e, Reader') => (.error e, Reader')

/-- Inherited member `set_parameters` on an `ObservableModule`. -/
def ObservableModule.set_parameters {O P : Type} (self : ObservableModule O P) (Par : P) :
    ObservableModule O P :=
  { self with toParametrized := self.toParametrized.set_parameters Par }

/-- Member `ObservableModule::getPtr`:
`if (!ObservablePtr) initialize(); return ObservablePtr.get();`
with the virtual `initialize` passed as `initialize_`. -/
def ObservableModule.getPtr {O P : Type} (initialize_ : BuildStep (ObservableModule O P))
    (self : ObservableModule O P) (w : World) :
    Except Failure (RawPtr O) × ObservableModule O P × World :=
  if !self.ObservablePtr.toBool then
    match initialize_ self w.heap with
    | (.ok (), self', h') =>
      (.ok self'.ObservablePtr.get, self',
        { w with heap := h', initialize_calls := w.initialize_calls + 1 })
    | (.error e, self', h') =>
      (.error e, self',
        { w with heap := h', initialize_calls := w.initialize_calls + 1 })
  else
    (.ok self.ObservablePtr.get, self, w)

/-- A driver calling `getPtr()` `n` times in a row on one module, catching
whatever a call throws; the results are listed in call order. -/
def ObservableModule.getPtr_times {O P : Type}
    (initialize_ : BuildStep (ObservableModule O P)) :
    Nat → ObservableModule O P → World →
      List (Except Failure (RawPtr O)) × ObservableModule O P × World
  | 0, self, w => ([], self, w)
  | n + 1, self, w =>
    match ObservableModule.getPtr initialize_ self w with
    | (r, self', w') =>
      match ObservableModule.getPtr_times initialize_ n self' w' with
      | (rs, self'', w'') => (r :: rs, self'', w'')

/-! ## The concrete modules of namespace `QCD` -/

namespace QCD

/-- The gauge implementation policy `PeriodicGimplR`, used only as a template
argument. -/
inductive PeriodicGimplR where
  | tag
  deriving DecidableEq, Repr

/-- The class `WilsonGaugeActionParameters`: the one serialisable member `beta`. -/
structure WilsonGaugeActionParameters where
  beta : RealD
  deriving DecidableEq, Repr

/-- Default construction of the parameters; the bit pattern left in `beta` is
taken to be zero. -/
instance : Inhabited WilsonGaugeActionParameters := ⟨⟨⟨0⟩⟩⟩

/-- The product class `WilsonGaugeAction<Impl>`, declared outside this header:
an object of it is known here by the coupling its constructor was called with. -/
structure WilsonGaugeAction (Impl : Type) where
  beta : RealD
  deriving DecidableEq, Repr

/-- The class `WilsonGModule<Impl>`; it adds no member to its `ActionModule` base. -/
abbrev WilsonGModule (Impl : Type) :=
  ActionModule (WilsonGaugeAction Impl) WilsonGaugeActionParameters

/-- Override `WilsonGModule::initialize`:
`this->ActionPtr.reset(new WilsonGaugeAction<Impl>(this->Par_.beta));` -/
def WilsonGModule.initialize {Impl : Type} : BuildStep (WilsonGModule Impl) :=
  fun self h =>
    match h.opNew (WilsonGaugeAction.mk self.Par_.beta : WilsonGaugeAction Impl) with
    | (p, h') => (.ok (), { self with ActionPtr := self.ActionPtr.reset (some p) }, h')

/-- The typedef `WilsonGMod`. -/
abbrev WilsonGMod := WilsonGModule PeriodicGimplR

/-- The class `PlaquetteObsParameters`: the one serialisable member. -/
structure PlaquetteObsParameters where
  output_prefix : String
  deriving DecidableEq, Repr

/-- Default construction of the parameters: the empty string. -/
instance : Inhabited PlaquetteObsParameters := ⟨⟨""⟩⟩

/-- The product class `PlaquetteLogger<Impl>`, declared outside this header: an
object of it is known here by the string its constructor was called with. -/
structure PlaquetteLogger (Impl : Type) where
  stem : String
  deriving DecidableEq, Repr

/-- The class `PlaquetteMod<Impl>`; it adds no member to its `ObservableModule`
base. -/
abbrev PlaquetteMod (Impl : Type) :=
  ObservableModule (PlaquetteLogger Impl) PlaquetteObsParameters

/-- Override `PlaquetteMod::initialize`:
`this->ObservablePtr.reset(new PlaquetteLogger<Impl>(this->Par_.output_prefix));` -/
def PlaquetteMod.initialize {Impl : Type} : BuildStep (PlaquetteMod Impl) :=
  fun self h =>
    match h.opNew (PlaquetteLogger.mk self.Par_.output_prefix : PlaquetteLogger Impl) with
    | (p, h') => (.ok (), { self with ObservablePtr := self.ObservablePtr.reset (some p) }, h')

end QCD

/-! ## Factory and registrar -/

/-- What a factory stores under a key: from the reader handed to `create` it
makes a new module on the free store, or throws. -/
abbrev Builder (M R : Type) := R → Heap → Except Failure (Ptr M) × Heap

/-- Modelled from the spec: the base class `Factory<T, CreatorInput>` that the
two module factories derive from is defined outside this header. Section 4.3
of the design document describes it as a mapping from string key to builder,
with keys unique within one registry. -/
structure Factory (M R : Type) where
  entries : List (String × Builder M R)

/-- Modelled from the spec: the registry before the registration phase. -/
def Factory.empty {M R : Type} : Factory M R := ⟨[]⟩

/-- Modelled from the spec: the builder registered under `key`, if there is one. -/
def Factory.find {M R : Type} (f : Factory M R) (key : String) : Option (Builder M R) :=
  f.entries.lookup key

/-- Modelled from the spec: `listKeys()`, the keys that have a builder. -/
def Factory.listKeys {M R : Type} (f : Factory M R) : List String :=
  f.entries.map Prod.fst

/-- Modelled from the spec: the map assignment behind `registerBuilder` of the
missing `Factory` class. Section 9 of the design document says of it that "the
source's underlying map insertion implicitly overwrites on duplicate key
registration": an entry with this key gets the new builder in place, and a key
not seen before is added at the end. -/
def Factory.assign {β : Type} (key : String) (b : β) : List (String × β) → List (String × β)
  | [] => [(key, b)]
  | (k, v) :: l => if key == k then (key, b) :: l else (k, v) :: Factory.assign key b l

/-- Modelled from the spec: `registerBuilder(key, builder)` of the missing
`Factory` class. Section 4.3 of the design document reads "inserts an entry.
Duplicate-key policy: reject with `DuplicateRegistrationError` (recommended; the
legacy behavior silently overwrote)", and section 9 calls rejecting "a
deliberate behavior change". The definition stands for the class as the source
has it, so it overwrites and never throws. -/
def Factory.registerBuilder {M R : Type} (f : Factory M R) (key : String)
    (builder : Builder M R) : Except Failure Unit × Factory M R :=
  (.ok (), ⟨Factory.assign key builder f.entries⟩)

/-- Modelled from the spec: `create(key, reader)` of the missing `Factory`
class; it "looks up `key`; fails with `UnknownModuleError` if absent; otherwise
invokes `builder(reader)` and returns ownership of the new instance to the
caller". -/
def Factory.create {M R : Type} (f : Factory M R) (key : String) (reader : R) (w : World) :
    Except Failure (Ptr M) × World :=
  match f.find key with
  | none => (.error .UnknownModuleError, w)
  | some builder =>
    match builder reader w.heap with
    | (res, h') => (res, { w with heap := h', builder_calls := w.builder_calls + 1 })

/-- The closure that `Registrar` hands to the factory:
`[&](TheReader Reader) { return std::unique_ptr<T>(new T(Reader)); }`.
`construct` is the reader constructor of `T`, `upcast` the conversion of a `T`
to the factory's module base class. The reader is taken by value, so what the
constructor does to it is not seen outside. -/
def Registrar.builder {T M R : Type} (construct : R → Except Failure T × R) (upcast : T → M) :
    Builder M R :=
  fun Reader h =>
    match construct Reader with
    | (.ok t, _) =>
      match h.opNew (upcast t) with
      | (p, h') => (.ok p, h')
    | (.error e, _) => (.error e, h)

/-- Constructor `Registrar<T, TheFactory>::Registrar(std::string className)`:
`TheFactory::getInstance().registerBuilder(className, <closure>)`. The singleton
behind `getInstance()` is passed in and returned. -/
def Registrar {T M R : Type} (construct : R → Except Failure T × R) (upcast : T → M)
    (className : String) (TheFactory : Factory M R) : Except Failure Unit × Factory M R :=
  TheFactory.registerBuilder className (Registrar.builder construct upcast)

/-- The static object
`Registrar<QCD::WilsonGMod, HMC_LGTActionModuleFactory<gauge_string, XmlReader>> __WGmodXMLInit("Wilson")`. -/
def __WGmodXMLInit {M R : Type} (read : ReadFn R QCD.WilsonGaugeActionParameters)
    (upcast : QCD.WilsonGMod → M) (HMC_LGTActionModuleFactory : Factory M R) :
    Except Failure Unit × Factory M R :=
  Registrar (ActionModule.fromReader read) upcast "Wilson" HMC_LGTActionModuleFactory

/-- The static object
`Registrar<QCD::PlaquetteMod<QCD::PeriodicGimplR>, HMC_ObservablesModuleFactory<observable_string, XmlReader>> __OBSPLmodXMLInit("Plaquette")`. -/
def __OBSPLmodXMLInit {M R : Type} (read : ReadFn R QCD.PlaquetteObsParameters)
    (upcast : QCD.PlaquetteMod QCD.PeriodicGimplR → M)
    (HMC_ObservablesModuleFactory : Factory M R) : Except Failure Unit × Factory M R :=
  Registrar (ObservableModule.fromReader read) upcast "Plaquette" HMC_ObservablesModuleFactory

/-! ## Fixtures for the worked examples -/

/-- A reader for the worked examples: a list of sections, each holding one
value; reading a section that is not there throws. -/
def exampleRead {V P : Type} (toPar : V → P) : ReadFn (List (String × V)) P :=
  fun Reader section_name _output =>
    match Reader.lookup section_name with
    | some v => (.ok (toPar v), Reader)
    | none => (.error (.foreign "no such section"), Reader)

/-- A reader for the worked examples that delivers coupling 5.6 whatever the
section holds; used to tell a second builder from a first one. -/
def exampleReadFixed : ReadFn (List (String × RealD)) QCD.WilsonGaugeActionParameters :=
  fun Reader _section_name _output => (.ok ⟨⟨0x4016666666666666⟩⟩, Reader)

/-- The double 6.0 as a bit pattern. -/
def RealD.six : RealD := ⟨0x4018000000000000⟩

/-- The double 5.6 as a bit pattern. -/
def RealD.fivePointSix : RealD := ⟨0x4016666666666666⟩

/-- A world in which nothing has happened yet. -/
def World.fresh : World := { heap := ⟨0⟩, initialize_calls := 0, builder_calls := 0 }

/-- A build step that returns without storing a product. -/
def exampleIdleStep {M : Type} : BuildStep M := fun self h => (.ok (), self, h)

/-- A build step that throws. -/
def exampleThrowingStep {M : Type} : BuildStep M :=
  fun self h => (.error (.foreign "std::bad_alloc"), self, h)

/-- A Wilson module built with coupling 6.0 whose parameters were then replaced
by coupling 5.6: `getPtr()`, then `set_parameters`. -/
def exampleRetunedWilson : QCD.WilsonGMod :=
  ActionModule.set_parameters
    (ActionModule.getPtr QCD.WilsonGModule.initialize
      (ActionModule.fromPar ⟨RealD.six⟩) World.fresh).2.1
    ⟨RealD.fivePointSix⟩

/-- A plaquette module built for "run1" whose parameters were then replaced by
"run2": `getPtr()`, then `set_parameters`. -/
def exampleRenamedPlaquette : QCD.PlaquetteMod QCD.PeriodicGimplR :=
  ObservableModule.set_parameters
    (ObservableModule.getPtr QCD.PlaquetteMod.initialize
      (ObservableModule.fromPar ⟨"run1"⟩) World.fresh).2.1
    ⟨"run2"⟩

/-! ## Basic facts about `getPtr` -/

theorem ActionModule.getPtr_of_built {A P : Type} (initialize_ : BuildStep (ActionModule A P))
    (m : ActionModule A P) (w : World) (p : Ptr A) (hp : m.ActionPtr.ptr = some p) :
    ActionModule.getPtr initialize_ m w = (.ok (some p), m, w) := by
  simp [ActionModule.getPtr, unique_ptr.toBool, unique_ptr.get, hp]

theorem ActionModule.getPtr_of_empty {A P : Type} (initialize_ : BuildStep (ActionModule A P))
    (m : ActionModule A P) (w : World) (hp : m.ActionPtr.ptr = none) :
    ActionModule.getPtr initialize_ m w =
      ((initialize_ m w.heap).1.map (fun _ => (initialize_ m w.heap).2.1.ActionPtr.ptr),
        (initialize_ m w.heap).2.1,
        { w with heap := (initialize_ m w.heap).2.2,
                 initialize_calls := w.initialize_calls + 1 }) := by
  simp only [ActionModule.getPtr, unique_ptr.toBool, unique_ptr.get, hp]
  rcases h : initialize_ m w.heap with ⟨r, m', h'⟩
  cases r with
  | error e => simp [Except.map]
  | ok u => cases u; simp [Except.map]

theorem ActionModule.getPtr_times_of_built {A P : Type}
    (initialize_ : BuildStep (ActionModule A P)) (n : Nat)
    (m : ActionModule A P) (w : World) (p : Ptr A) (hp : m.ActionPtr.ptr = some p) :
    ActionModule.getPtr_times initialize_ n m w = (List.replicate n (.ok (some p)), m, w) := by
  induction n with
  | zero => simp [ActionModule.getPtr_times]
  | succ k ih =>
    simp [ActionModule.getPtr_times, ActionModule.getPtr_of_built initialize_ m w p hp, ih,
      List.replicate_succ]

theorem ObservableModule.obs_getPtr_of_built {O P : Type}
    (initialize_ : BuildStep (ObservableModule O P))
    (m : ObservableModule O P) (w : World) (p : Ptr O) (hp : m.ObservablePtr.ptr = some p) :
    ObservableModule.getPtr initialize_ m w = (.ok (some p), m, w) := by
  simp [ObservableModule.getPtr, unique_ptr.toBool, unique_ptr.get, hp]

theorem ObservableModule.obs_getPtr_of_empty {O P : Type}
    (initialize_ : BuildStep (ObservableModule O P))
    (m : ObservableModule O P) (w : World) (hp : m.ObservablePtr.ptr = none) :
    ObservableModule.getPtr initialize_ m w =
      ((initialize_ m w.heap).1.map (fun _ => (initialize_ m w.heap).2.1.ObservablePtr.ptr),
        (initialize_ m w.heap).2.1,
        { w with heap := (initialize_ m w.heap).2.2,
                 initialize_calls := w.initialize_calls + 1 }) := by
  simp only [ObservableModule.getPtr, unique_ptr.toBool, unique_ptr.get, hp]
  rcases h : initialize_ m w.heap with ⟨r, m', h'⟩
  cases r with
  | error e => simp [Except.map]
  | ok u => cases u; simp [Except.map]

theorem ObservableModule.obs_getPtr_times_of_built {O P : Type}
    (initialize_ : BuildStep (ObservableModule O P)) (n : Nat)
    (m : ObservableModule O P) (w : World) (p : Ptr O) (hp : m.ObservablePtr.ptr = some p) :
    ObservableModule.getPtr_times initialize_ n m w =
      (List.replicate n (.ok (some p)), m, w) := by
  induction n with
  | zero => simp [ObservableModule.getPtr_times]
  | succ k ih =>
    simp [ObservableModule.getPtr_times, ObservableModule.obs_getPtr_of_built initialize_ m w p hp,
      ih, List.replicate_succ]

/-! ## Lazy, memoised construction -/

/-- C1. On a module whose product pointer is still empty and whose build step
returns with a non-null product `p` stored, `N ≥ 1` calls of `getPtr()` in a row
all return `p`, and the build step has run exactly once after them, whatever
`N` is (so it ran during the first call); this holds for `ActionModule` and for
`ObservableModule`. -/
theorem getPtr_builds_exactly_once {A O P Q : Type} :
    (∀ (initialize_ : BuildStep (ActionModule A P)) (m m' : ActionModule A P) (w : World)
        (h' : Heap) (p : Ptr A) (N : Nat),
        m.ActionPtr.ptr = none → initialize_ m w.heap = (.ok (), m', h') →
        m'.ActionPtr.ptr = some p → 1 ≤ N →
        ActionModule.getPtr_times initialize_ N m w =
          (List.replicate N (.ok (some p)), m',
            { w with heap := h', initialize_calls := w.initialize_calls + 1 })) ∧
    (∀ (initialize_ : BuildStep (ObservableModule O Q)) (m m' : ObservableModule O Q)
        (w : World) (h' : Heap) (p : Ptr O) (N : Nat),
        m.ObservablePtr.ptr = none → initialize_ m w.heap = (.ok (), m', h') →
        m'.ObservablePtr.ptr = some p → 1 ≤ N →
        ObservableModule.getPtr_times initialize_ N m w =
          (List.replicate N (.ok (some p)), m',
            { w with heap := h', initialize_calls := w.initialize_calls + 1 })) := by
  constructor
  · intro initialize_ m m' w h' p N hm hi hp hN
    obtain ⟨k, rfl⟩ : ∃ k, N = k + 1 := ⟨N - 1, by omega⟩
    simp [ActionModule.getPtr_times, ActionModule.getPtr_of_empty initialize_ m w hm, hi,
      ActionModule.getPtr_times_of_built initialize_ k m' _ p hp, List.replicate_succ,
      Except.map, hp]
  · intro initialize_ m m' w h' p N hm hi hp hN
    obtain ⟨k, rfl⟩ : ∃ k, N = k + 1 := ⟨N - 1, by omega⟩
    simp [ObservableModule.getPtr_times, ObservableModule.obs_getPtr_of_empty initialize_ m w hm,
      hi, ObservableModule.obs_getPtr_times_of_built initialize_ k m' _ p hp, List.replicate_succ,
      Except.map, hp]

/-- C1, worked example: three calls on a freshly constructed Wilson module and
on a freshly constructed plaquette module. -/
theorem getPtr_builds_exactly_once_witness :
    ActionModule.getPtr_times QCD.WilsonGModule.initialize 3
        (ActionModule.fromPar ⟨RealD.six⟩ : QCD.WilsonGMod) World.fresh =
      (List.replicate 3 (.ok (some ⟨0, ⟨RealD.six⟩⟩)),
        { toParametrized := Parametrized.fromPar ⟨RealD.six⟩,
          ActionPtr := ⟨some ⟨0, ⟨RealD.six⟩⟩⟩ },
        { heap := ⟨1⟩, initialize_calls := 1, builder_calls := 0 }) ∧
    ObservableModule.getPtr_times QCD.PlaquetteMod.initialize 3
        (ObservableModule.fromPar ⟨"run1"⟩ : QCD.PlaquetteMod QCD.PeriodicGimplR) World.fresh =
      (List.replicate 3 (.ok (some ⟨0, ⟨"run1"⟩⟩)),
        { toParametrized := Parametrized.fromPar ⟨"run1"⟩,
          ObservablePtr := ⟨some ⟨0, ⟨"run1"⟩⟩⟩ },
        { heap := ⟨1⟩, initialize_calls := 1, builder_calls := 0 }) :=
  have both := @getPtr_builds_exactly_once (QCD.WilsonGaugeAction QCD.PeriodicGimplR)
    (QCD.PlaquetteLogger QCD.PeriodicGimplR) QCD.WilsonGaugeActionParameters
    QCD.PlaquetteObsParameters
  ⟨both.1 QCD.WilsonGModule.initialize _ _ World.fresh ⟨1⟩ _ 3 rfl rfl rfl (by decide),
   both.2 QCD.PlaquetteMod.initialize _ _ World.fresh ⟨1⟩ _ 3 rfl rfl rfl (by decide)⟩

/-! ## Construction -/

theorem ActionModule.fromReader_eq {R A P : Type} [Inhabited P] (read : ReadFn R P) (r : R) :
    (ActionModule.fromReader read r : Except Failure (ActionModule A P) × R) =
      ((read r "parameters" default).1.map ActionModule.fromPar,
        (read r "parameters" default).2) := by
  simp only [ActionModule.fromReader, Parametrized.fromReader,
    Parametrized.default_section_name]
  rcases h : read r "parameters" default with ⟨res, r'⟩
  cases res <;> simp [Except.map, ActionModule.fromPar, Parametrized.fromPar]

theorem ObservableModule.obs_fromReader_eq {R O P : Type} [Inhabited P] (read : ReadFn R P)
    (r : R) :
    (ObservableModule.fromReader read r : Except Failure (ObservableModule O P) × R) =
      ((read r "parameters" default).1.map ObservableModule.fromPar,
        (read r "parameters" default).2) := by
  simp only [ObservableModule.fromReader, Parametrized.fromReader,
    Parametrized.default_section_name]
  rcases h : read r "parameters" default with ⟨res, r'⟩
  cases res <;> simp [Except.map, ObservableModule.fromPar, Parametrized.fromPar]

/-- C2. Construction only stores the configuration. A module made from a
parameter value `V` holds `V` and an empty product pointer; a module made from
a reader is exactly the module made from the value that `read` delivers for the
section "parameters" (and construction throws exactly when `read` throws), so
its pointer is empty as well; and the build step has not run, since the first
`getPtr()` on the new module runs it. All of this for `ActionModule` and for
`ObservableModule`, every parameter value and every reader. -/
theorem construction_builds_no_product {R A O P Q : Type} [Inhabited P] [Inhabited Q]
    (readP : ReadFn R P) (readQ : ReadFn R Q) :
    ((∀ V : P, (ActionModule.fromPar V : ActionModule A P).ActionPtr.get = none ∧
        (ActionModule.fromPar V : ActionModule A P).Par_ = V) ∧
      (∀ r : R, (ActionModule.fromReader readP r : Except Failure (ActionModule A P) × R).1 =
        (readP r "parameters" default).1.map ActionModule.fromPar) ∧
      (∀ (initialize_ : BuildStep (ActionModule A P)) (V : P) (w : World),
        (ActionModule.getPtr initialize_ (ActionModule.fromPar V) w).2.2.initialize_calls =
          w.initialize_calls + 1)) ∧
    ((∀ V : Q, (ObservableModule.fromPar V : ObservableModule O Q).ObservablePtr.get = none ∧
        (ObservableModule.fromPar V : ObservableModule O Q).Par_ = V) ∧
      (∀ r : R,
        (ObservableModule.fromReader readQ r : Except Failure (ObservableModule O Q) × R).1 =
          (readQ r "parameters" default).1.map ObservableModule.fromPar) ∧
      (∀ (initialize_ : BuildStep (ObservableModule O Q)) (V : Q) (w : World),
        (ObservableModule.getPtr initialize_ (ObservableModule.fromPar V)
          w).2.2.initialize_calls = w.initialize_calls + 1)) := by
  refine ⟨⟨fun V => ⟨rfl, rfl⟩, fun r => ?_, fun i V w => ?_⟩,
    ⟨fun V => ⟨rfl, rfl⟩, fun r => ?_, fun i V w => ?_⟩⟩
  · rw [ActionModule.fromReader_eq]
  · rw [ActionModule.getPtr_of_empty i _ w rfl]
  · rw [ObservableModule.obs_fromReader_eq]
  · rw [ObservableModule.obs_getPtr_of_empty i _ w rfl]

/-! ## Replacing the configuration -/

/-- C9. After `set_parameters(V)` the stored value is `V`, whole, and the block
is the same as if `V` had replaced any other previous value; `set_parameters(V)`
followed by `set_parameters(W)` leaves `W`. The same holds through the two
module classes, whose product pointer the call leaves alone. -/
theorem set_parameters_overwrites {A O P : Type} (V W : P) :
    (∀ blk : Parametrized P,
      (blk.set_parameters V).Par_ = V ∧
      (∀ U : P, ({ blk with Par_ := U } : Parametrized P).set_parameters V =
        blk.set_parameters V) ∧
      ((blk.set_parameters V).set_parameters W).Par_ = W ∧
      (blk.set_parameters V).set_parameters W = blk.set_parameters W) ∧
    (∀ m : ActionModule A P,
      (m.set_parameters V).Par_ = V ∧ ((m.set_parameters V).set_parameters W).Par_ = W ∧
      (m.set_parameters V).ActionPtr = m.ActionPtr) ∧
    (∀ m : ObservableModule O P,
      (m.set_parameters V).Par_ = V ∧ ((m.set_parameters V).set_parameters W).Par_ = W ∧
      (m.set_parameters V).ObservablePtr = m.ObservablePtr) :=
  ⟨fun _ => ⟨rfl, fun _ => rfl, rfl, rfl⟩, fun _ => ⟨rfl, rfl, rfl⟩, fun _ => ⟨rfl, rfl, rfl⟩⟩

/-! ## Value construction against reader construction -/

theorem QCD.WilsonGModule.wilson_getPtr_of_empty {Impl : Type} (m : QCD.WilsonGModule Impl)
    (w : World) (hm : m.ActionPtr.ptr = none) :
    ActionModule.getPtr QCD.WilsonGModule.initialize m w =
      (.ok (some ⟨w.heap.next, ⟨m.Par_.beta⟩⟩),
        { m with ActionPtr := ⟨some ⟨w.heap.next, ⟨m.Par_.beta⟩⟩⟩ },
        { w with heap := ⟨w.heap.next + 1⟩, initialize_calls := w.initialize_calls + 1 }) := by
  rw [ActionModule.getPtr_of_empty _ m w hm]
  simp [ QCD.WilsonGModule.initialize, Heap.opNew, unique_ptr.reset, Except.map]

theorem QCD.PlaquetteMod.plaquette_getPtr_of_empty {Impl : Type} (m : QCD.PlaquetteMod Impl)
    (w : World) (hm : m.ObservablePtr.ptr = none) :
    ObservableModule.getPtr QCD.PlaquetteMod.initialize m w =
      (.ok (some ⟨w.heap.next, ⟨ m.Par_.output_prefix⟩⟩),
        { m with ObservablePtr := ⟨some ⟨w.heap.next, ⟨ m.Par_.output_prefix⟩⟩⟩ },
        { w with heap := ⟨w.heap.next + 1⟩, initialize_calls := w.initialize_calls + 1 }) := by
  rw [ObservableModule.obs_getPtr_of_empty _ m w hm]
  simp [ QCD.PlaquetteMod.initialize, Heap.opNew, unique_ptr.reset, Except.map]

/-- C7. When `read` delivers `V` for the section "parameters" of reader `r`, the
module constructed from `r` is the module constructed from `V` (so the stored
parameters are equal), for both module classes; and for `WilsonGModule` and
`PlaquetteMod` the first `getPtr()` on either module does the same thing and
yields a product made from `V.beta`, respectively `V.output_prefix`. -/
theorem reader_and_value_construction_agree {R A O P Q Impl : Type} [Inhabited P]
    [Inhabited Q] :
    (∀ (read : ReadFn R P) (r : R) (V : P), (read r "parameters" default).1 = .ok V →
      (ActionModule.fromReader read r).1 = .ok (ActionModule.fromPar V : ActionModule A P)) ∧
    (∀ (read : ReadFn R Q) (r : R) (V : Q), (read r "parameters" default).1 = .ok V →
      (ObservableModule.fromReader read r).1 =
        .ok (ObservableModule.fromPar V : ObservableModule O Q)) ∧
    (∀ (read : ReadFn R QCD.WilsonGaugeActionParameters) (r : R)
        (V : QCD.WilsonGaugeActionParameters) (w : World),
      (read r "parameters" default).1 = .ok V →
      ∃ m : QCD.WilsonGModule Impl, (ActionModule.fromReader read r).1 = .ok m ∧
        m.Par_ = (ActionModule.fromPar V : QCD.WilsonGModule Impl).Par_ ∧
        ActionModule.getPtr QCD.WilsonGModule.initialize m w =
          ActionModule.getPtr QCD.WilsonGModule.initialize (ActionModule.fromPar V) w ∧
        (ActionModule.getPtr QCD.WilsonGModule.initialize m w).1 =
          .ok (some ⟨w.heap.next, ⟨V.beta⟩⟩)) ∧
    (∀ (read : ReadFn R QCD.PlaquetteObsParameters) (r : R)
        (V : QCD.PlaquetteObsParameters) (w : World),
      (read r "parameters" default).1 = .ok V →
      ∃ m : QCD.PlaquetteMod Impl, (ObservableModule.fromReader read r).1 = .ok m ∧
        m.Par_ = (ObservableModule.fromPar V : QCD.PlaquetteMod Impl).Par_ ∧
        ObservableModule.getPtr QCD.PlaquetteMod.initialize m w =
          ObservableModule.getPtr QCD.PlaquetteMod.initialize (ObservableModule.fromPar V) w ∧
        (ObservableModule.getPtr QCD.PlaquetteMod.initialize m w).1 =
          .ok (some ⟨w.heap.next, ⟨ V.output_prefix⟩⟩)) := by
  refine ⟨fun read r V h => ?_, fun read r V h => ?_, fun read r V w h => ?_,
    fun read r V w h => ?_⟩
  · rw [ActionModule.fromReader_eq, h]; rfl
  · rw [ObservableModule.obs_fromReader_eq, h]; rfl
  · refine ⟨ActionModule.fromPar V, ?_, rfl, rfl, ?_⟩
    · rw [ActionModule.fromReader_eq, h]; rfl
    · rw [QCD.WilsonGModule.wilson_getPtr_of_empty _ w rfl]; rfl
  · refine ⟨ObservableModule.fromPar V, ?_, rfl, rfl, ?_⟩
    · rw [ObservableModule.obs_fromReader_eq, h]; rfl
    · rw [QCD.PlaquetteMod.plaquette_getPtr_of_empty _ w rfl]; rfl

/-- C7, worked example: a reader whose section "parameters" holds 6.0, and one
whose section holds "run1". -/
theorem reader_and_value_construction_agree_witness :
    (ActionModule.fromReader (exampleRead QCD.WilsonGaugeActionParameters.mk)
        [("parameters", RealD.six)]).1 =
      .ok (ActionModule.fromPar ⟨RealD.six⟩ : QCD.WilsonGMod) ∧
    (ObservableModule.fromReader (exampleRead QCD.PlaquetteObsParameters.mk)
        [("parameters", "run1")]).1 =
      .ok (ObservableModule.fromPar ⟨"run1"⟩ : QCD.PlaquetteMod QCD.PeriodicGimplR) :=
  have all := @reader_and_value_construction_agree (List (String × RealD))
    (QCD.WilsonGaugeAction QCD.PeriodicGimplR) (QCD.PlaquetteLogger QCD.PeriodicGimplR)
    QCD.WilsonGaugeActionParameters QCD.PlaquetteObsParameters QCD.PeriodicGimplR _ _
  have all' := @reader_and_value_construction_agree (List (String × String))
    (QCD.WilsonGaugeAction QCD.PeriodicGimplR) (QCD.PlaquetteLogger QCD.PeriodicGimplR)
    QCD.WilsonGaugeActionParameters QCD.PlaquetteObsParameters QCD.PeriodicGimplR _ _
  ⟨all.1 (exampleRead QCD.WilsonGaugeActionParameters.mk) [("parameters", RealD.six)]
      ⟨RealD.six⟩ (by simp [exampleRead, List.lookup]),
   all'.2.1 (exampleRead QCD.PlaquetteObsParameters.mk) [("parameters", "run1")]
      ⟨"run1"⟩ (by simp [exampleRead, List.lookup])⟩

/-! ## The concrete build steps -/

/-- C8 as stated fails on a module that was built before its parameters were
replaced: the stored coupling is 5.6 but `getPtr()` yields the product made
with 6.0, and likewise the stored string is "run2" but the logger was made with
"run1". -/
theorem getPtr_on_built_module_ignores_stored_field :
    (exampleRetunedWilson.Par_.beta = RealD.fivePointSix ∧
      (ActionModule.getPtr QCD.WilsonGModule.initialize exampleRetunedWilson World.fresh).1 =
        .ok (some ⟨0, ⟨RealD.six⟩⟩) ∧
      RealD.six ≠ RealD.fivePointSix) ∧
    ( exampleRenamedPlaquette.Par_.output_prefix = "run2" ∧
      (ObservableModule.getPtr QCD.PlaquetteMod.initialize exampleRenamedPlaquette
        World.fresh).1 = .ok (some ⟨0, ⟨"run1"⟩⟩) ∧
      "run1" ≠ "run2") := by
  refine ⟨⟨rfl, rfl, by decide⟩, ⟨rfl, rfl, by decide⟩⟩

/-- C8, amended. The build step of `WilsonGModule` stores a `WilsonGaugeAction`
made with the stored `beta`, that of `PlaquetteMod` a `PlaquetteLogger` made
with the stored `output_prefix`; hence on a module whose product has not been
built yet and whose stored field is `b` (resp. `s`), `getPtr()` builds and
yields the product made with `b` (resp. `s`). -/
theorem getPtr_on_unbuilt_module_uses_stored_field {Impl : Type} :
    (∀ (m : QCD.WilsonGModule Impl) (h : Heap),
      QCD.WilsonGModule.initialize m h =
        (.ok (), { m with ActionPtr := ⟨some ⟨h.next, ⟨m.Par_.beta⟩⟩⟩ }, ⟨h.next + 1⟩)) ∧
    (∀ (m : QCD.WilsonGModule Impl) (w : World) (b : RealD),
      m.ActionPtr.ptr = none → m.Par_.beta = b →
      ActionModule.getPtr QCD.WilsonGModule.initialize m w =
        (.ok (some ⟨w.heap.next, ⟨b⟩⟩),
          { m with ActionPtr := ⟨some ⟨w.heap.next, ⟨b⟩⟩⟩ },
          { w with heap := ⟨w.heap.next + 1⟩,
                   initialize_calls := w.initialize_calls + 1 })) ∧
    (∀ (m : QCD.PlaquetteMod Impl) (h : Heap),
      QCD.PlaquetteMod.initialize m h =
        (.ok (), { m with ObservablePtr := ⟨some ⟨h.next, ⟨ m.Par_.output_prefix⟩⟩⟩ },
          ⟨h.next + 1⟩)) ∧
    (∀ (m : QCD.PlaquetteMod Impl) (w : World) (s : String),
      m.ObservablePtr.ptr = none → m.Par_.output_prefix = s →
      ObservableModule.getPtr QCD.PlaquetteMod.initialize m w =
        (.ok (some ⟨w.heap.next, ⟨s⟩⟩),
          { m with ObservablePtr := ⟨some ⟨w.heap.next, ⟨s⟩⟩⟩ },
          { w with heap := ⟨w.heap.next + 1⟩,
                   initialize_calls := w.initialize_calls + 1 })) := by
  refine ⟨fun m h => rfl, fun m w b hm hb => ?_, fun m h => rfl, fun m w s hm hs => ?_⟩
  · subst hb; exact QCD.WilsonGModule.wilson_getPtr_of_empty m w hm
  · subst hs; exact QCD.PlaquetteMod.plaquette_getPtr_of_empty m w hm

/-- C8, worked example: the module made from a reader with `beta = 6.0` yields
an action with coupling 6.0, the one made from a reader with `output_prefix =
"run1"` a logger for "run1". -/
theorem getPtr_on_unbuilt_module_uses_stored_field_witness :
    ((ActionModule.fromReader (exampleRead QCD.WilsonGaugeActionParameters.mk)
        [("parameters", RealD.six)]).1 =
        .ok (ActionModule.fromPar ⟨RealD.six⟩ : QCD.WilsonGMod) ∧
      ActionModule.getPtr QCD.WilsonGModule.initialize
          (ActionModule.fromPar ⟨RealD.six⟩ : QCD.WilsonGMod) World.fresh =
        (.ok (some ⟨0, ⟨RealD.six⟩⟩),
          { toParametrized := Parametrized.fromPar ⟨RealD.six⟩,
            ActionPtr := ⟨some ⟨0, ⟨RealD.six⟩⟩⟩ },
          { heap := ⟨1⟩, initialize_calls := 1, builder_calls := 0 })) ∧
    ((ObservableModule.fromReader (exampleRead QCD.PlaquetteObsParameters.mk)
        [("parameters", "run1")]).1 =
        .ok (ObservableModule.fromPar ⟨"run1"⟩ : QCD.PlaquetteMod QCD.PeriodicGimplR) ∧
      ObservableModule.getPtr QCD.PlaquetteMod.initialize
          (ObservableModule.fromPar ⟨"run1"⟩ : QCD.PlaquetteMod QCD.PeriodicGimplR)
          World.fresh =
        (.ok (some ⟨0, ⟨"run1"⟩⟩),
          { toParametrized := Parametrized.fromPar ⟨"run1"⟩,
            ObservablePtr := ⟨some ⟨0, ⟨"run1"⟩⟩⟩ },
          { heap := ⟨1⟩, initialize_calls := 1, builder_calls := 0 })) :=
  have all := @getPtr_on_unbuilt_module_uses_stored_field QCD.PeriodicGimplR
  ⟨⟨by simp [ActionModule.fromReader_eq, exampleRead, List.lookup, Except.map],
      all.2.1 (ActionModule.fromPar ⟨RealD.six⟩) World.fresh RealD.six rfl rfl⟩,
   ⟨by simp [ObservableModule.obs_fromReader_eq, exampleRead, List.lookup, Except.map],
      all.2.2.2 (ObservableModule.fromPar ⟨"run1"⟩) World.fresh "run1" rfl rfl⟩⟩

/-! ## Replacing the configuration of a built module -/

theorem ActionModule.getPtr_keeps_Par {A P : Type} (initialize_ : BuildStep (ActionModule A P))
    (m : ActionModule A P) (w : World)
    (frame : ∀ (m0 : ActionModule A P) (h : Heap), (initialize_ m0 h).2.1.Par_ = m0.Par_) :
    (ActionModule.getPtr initialize_ m w).2.1.Par_ = m.Par_ := by
  rcases hm : m.ActionPtr.ptr with _ | p
  · rw [ActionModule.getPtr_of_empty initialize_ m w hm]; exact frame m w.heap
  · rw [ActionModule.getPtr_of_built initialize_ m w p hm]

theorem ObservableModule.obs_getPtr_keeps_Par {O P : Type}
    (initialize_ : BuildStep (ObservableModule O P)) (m : ObservableModule O P) (w : World)
    (frame : ∀ (m0 : ObservableModule O P) (h : Heap), (initialize_ m0 h).2.1.Par_ = m0.Par_) :
    (ObservableModule.getPtr initialize_ m w).2.1.Par_ = m.Par_ := by
  rcases hm : m.ObservablePtr.ptr with _ | p
  · rw [ObservableModule.obs_getPtr_of_empty initialize_ m w hm]; exact frame m w.heap
  · rw [ObservableModule.obs_getPtr_of_built initialize_ m w p hm]

/-- C10. On a module that holds a built product `p`, `set_parameters(W)` makes
the stored parameters `W`, and any number of later `getPtr()` calls return `p`
again and leave module and world as they are (the build step does not run).
For `WilsonGModule` and `PlaquetteMod` built from `V` this means the product
keeps the field of `V` while the stored parameters are `W`. In the other
direction `getPtr()` leaves the stored parameters alone: for any build step
that does not write them, and so for the two build steps of this header. -/
theorem set_parameters_does_not_rebuild {A O P Q Impl : Type} :
    (∀ (initialize_ : BuildStep (ActionModule A P)) (m : ActionModule A P) (w : World)
        (p : Ptr A) (W : P) (n : Nat), m.ActionPtr.ptr = some p →
      (m.set_parameters W).Par_ = W ∧
      ActionModule.getPtr_times initialize_ n (m.set_parameters W) w =
        (List.replicate n (.ok (some p)), m.set_parameters W, w)) ∧
    (∀ (initialize_ : BuildStep (ObservableModule O Q)) (m : ObservableModule O Q)
        (w : World) (p : Ptr O) (W : Q) (n : Nat), m.ObservablePtr.ptr = some p →
      (m.set_parameters W).Par_ = W ∧
      ObservableModule.getPtr_times initialize_ n (m.set_parameters W) w =
        (List.replicate n (.ok (some p)), m.set_parameters W, w)) ∧
    (∀ (V W : QCD.WilsonGaugeActionParameters) (w : World),
      ∃ (m1 : QCD.WilsonGModule Impl) (w1 : World),
        ActionModule.getPtr QCD.WilsonGModule.initialize (ActionModule.fromPar V) w =
          (.ok (some ⟨w.heap.next, ⟨V.beta⟩⟩), m1, w1) ∧
        (ActionModule.set_parameters m1 W).Par_ = W ∧
        ActionModule.getPtr QCD.WilsonGModule.initialize (ActionModule.set_parameters m1 W) w1 =
          (.ok (some ⟨w.heap.next, ⟨V.beta⟩⟩), ActionModule.set_parameters m1 W, w1)) ∧
    (∀ (V W : QCD.PlaquetteObsParameters) (w : World),
      ∃ (m1 : QCD.PlaquetteMod Impl) (w1 : World),
        ObservableModule.getPtr QCD.PlaquetteMod.initialize (ObservableModule.fromPar V) w =
          (.ok (some ⟨w.heap.next, ⟨ V.output_prefix⟩⟩), m1, w1) ∧
        (ObservableModule.set_parameters m1 W).Par_ = W ∧
        ObservableModule.getPtr QCD.PlaquetteMod.initialize
            (ObservableModule.set_parameters m1 W) w1 =
          (.ok (some ⟨w.heap.next, ⟨ V.output_prefix⟩⟩),
            ObservableModule.set_parameters m1 W, w1)) ∧
    (∀ (initialize_ : BuildStep (ActionModule A P)) (m : ActionModule A P) (w : World),
      (∀ (m0 : ActionModule A P) (h : Heap), (initialize_ m0 h).2.1.Par_ = m0.Par_) →
      (ActionModule.getPtr initialize_ m w).2.1.Par_ = m.Par_) ∧
    (∀ (initialize_ : BuildStep (ObservableModule O Q)) (m : ObservableModule O Q)
        (w : World),
      (∀ (m0 : ObservableModule O Q) (h : Heap), (initialize_ m0 h).2.1.Par_ = m0.Par_) →
      (ObservableModule.getPtr initialize_ m w).2.1.Par_ = m.Par_) ∧
    (∀ (m : QCD.WilsonGModule Impl) (w : World),
      (ActionModule.getPtr QCD.WilsonGModule.initialize m w).2.1.Par_ = m.Par_) ∧
    (∀ (m : QCD.PlaquetteMod Impl) (w : World),
      (ObservableModule.getPtr QCD.PlaquetteMod.initialize m w).2.1.Par_ = m.Par_) := by
  refine ⟨fun i m w p W n hp => ⟨rfl, ?_⟩, fun i m w p W n hp => ⟨rfl, ?_⟩,
    fun V W w => ?_, fun V W w => ?_,
    fun i m w frame => ActionModule.getPtr_keeps_Par i m w frame,
    fun i m w frame => ObservableModule.obs_getPtr_keeps_Par i m w frame,
    fun m w => ActionModule.getPtr_keeps_Par _ m w (fun _ _ => rfl),
    fun m w => ObservableModule.obs_getPtr_keeps_Par _ m w (fun _ _ => rfl)⟩
  · exact ActionModule.getPtr_times_of_built i n _ w p hp
  · exact ObservableModule.obs_getPtr_times_of_built i n _ w p hp
  · refine ⟨_, _, QCD.WilsonGModule.wilson_getPtr_of_empty _ w rfl, rfl, ?_⟩
    exact ActionModule.getPtr_of_built _ _ _ _ rfl
  · refine ⟨_, _, QCD.PlaquetteMod.plaquette_getPtr_of_empty _ w rfl, rfl, ?_⟩
    exact ObservableModule.obs_getPtr_of_built _ _ _ _ rfl

/-- C10, worked example: a Wilson module built with 6.0 and then given 5.6, and a
plaquette module built for "run1" and then given "run2"; two further calls. -/
theorem set_parameters_does_not_rebuild_witness :
    (exampleRetunedWilson.Par_ = ⟨RealD.fivePointSix⟩ ∧
      ActionModule.getPtr_times QCD.WilsonGModule.initialize 2 exampleRetunedWilson
          { heap := ⟨1⟩, initialize_calls := 1, builder_calls := 0 } =
        ([.ok (some ⟨0, ⟨RealD.six⟩⟩), .ok (some ⟨0, ⟨RealD.six⟩⟩)], exampleRetunedWilson,
          { heap := ⟨1⟩, initialize_calls := 1, builder_calls := 0 })) ∧
    (exampleRenamedPlaquette.Par_ = ⟨"run2"⟩ ∧
      ObservableModule.getPtr_times QCD.PlaquetteMod.initialize 2 exampleRenamedPlaquette
          { heap := ⟨1⟩, initialize_calls := 1, builder_calls := 0 } =
        ([.ok (some ⟨0, ⟨"run1"⟩⟩), .ok (some ⟨0, ⟨"run1"⟩⟩)], exampleRenamedPlaquette,
          { heap := ⟨1⟩, initialize_calls := 1, builder_calls := 0 })) :=
  have all := @set_parameters_does_not_rebuild (QCD.WilsonGaugeAction QCD.PeriodicGimplR)
    (QCD.PlaquetteLogger QCD.PeriodicGimplR) QCD.WilsonGaugeActionParameters
    QCD.PlaquetteObsParameters QCD.PeriodicGimplR
  ⟨all.1 QCD.WilsonGModule.initialize
      (ActionModule.getPtr QCD.WilsonGModule.initialize
        (ActionModule.fromPar ⟨RealD.six⟩) World.fresh).2.1
      { heap := ⟨1⟩, initialize_calls := 1, builder_calls := 0 } ⟨0, ⟨RealD.six⟩⟩
      ⟨RealD.fivePointSix⟩ 2 rfl,
   all.2.1 QCD.PlaquetteMod.initialize
      (ObservableModule.getPtr QCD.PlaquetteMod.initialize
        (ObservableModule.fromPar ⟨"run1"⟩) World.fresh).2.1
      { heap := ⟨1⟩, initialize_calls := 1, builder_calls := 0 } ⟨0, ⟨"run1"⟩⟩
      ⟨"run2"⟩ 2 rfl⟩

/-! ## A build step that fails -/

/-- C6 as stated fails. With a build step that returns without storing a
product, two `getPtr()` calls each return the null pointer, no error at all,
and the build step has run twice; with a build step that throws, each call lets
that exception through, which is not `ModuleInitializationError`, and again the
build step has run twice. -/
theorem failed_build_is_retried_and_not_wrapped :
    ActionModule.getPtr_times exampleIdleStep 2
        (ActionModule.fromPar ⟨RealD.six⟩ : QCD.WilsonGMod) World.fresh =
      ([.ok none, .ok none], ActionModule.fromPar ⟨RealD.six⟩,
        { heap := ⟨0⟩, initialize_calls := 2, builder_calls := 0 }) ∧
    ActionModule.getPtr_times exampleThrowingStep 2
        (ActionModule.fromPar ⟨RealD.six⟩ : QCD.WilsonGMod) World.fresh =
      ([.error (.foreign "std::bad_alloc"), .error (.foreign "std::bad_alloc")],
        ActionModule.fromPar ⟨RealD.six⟩,
        { heap := ⟨0⟩, initialize_calls := 2, builder_calls := 0 }) ∧
    ObservableModule.getPtr_times exampleIdleStep 2
        (ObservableModule.fromPar ⟨"run1"⟩ : QCD.PlaquetteMod QCD.PeriodicGimplR)
        World.fresh =
      ([.ok none, .ok none], ObservableModule.fromPar ⟨"run1"⟩,
        { heap := ⟨0⟩, initialize_calls := 2, builder_calls := 0 }) ∧
    ObservableModule.getPtr_times exampleThrowingStep 2
        (ObservableModule.fromPar ⟨"run1"⟩ : QCD.PlaquetteMod QCD.PeriodicGimplR)
        World.fresh =
      ([.error (.foreign "std::bad_alloc"), .error (.foreign "std::bad_alloc")],
        ObservableModule.fromPar ⟨"run1"⟩,
        { heap := ⟨0⟩, initialize_calls := 2, builder_calls := 0 }) ∧
    Failure.foreign "std::bad_alloc" ≠ Failure.ModuleInitializationError := by
  refine ⟨rfl, rfl, rfl, rfl, by decide⟩

/-- C6, amended. On a module whose product pointer is empty: if the build step
returns without storing a product, `getPtr()` returns the null pointer and
reports no error; if the build step throws, `getPtr()` lets that same exception
through; and if the build step, returning or throwing, leaves the pointer
empty, the next `getPtr()` runs the build step again, so after two calls it has
run twice. -/
theorem failed_build_passes_through_and_retries {A O P Q : Type} :
    (∀ (initialize_ : BuildStep (ActionModule A P)) (m m' : ActionModule A P) (w : World)
        (h' : Heap), m.ActionPtr.ptr = none →
      (initialize_ m w.heap = (.ok (), m', h') → m'.ActionPtr.ptr = none →
        ActionModule.getPtr initialize_ m w =
          (.ok none, m',
            { w with heap := h', initialize_calls := w.initialize_calls + 1 })) ∧
      (∀ e : Failure, initialize_ m w.heap = (.error e, m', h') →
        ActionModule.getPtr initialize_ m w =
          (.error e, m',
            { w with heap := h', initialize_calls := w.initialize_calls + 1 })) ∧
      ((initialize_ m w.heap).2 = (m', h') → m'.ActionPtr.ptr = none →
        (ActionModule.getPtr_times initialize_ 2 m w).2.1 = (initialize_ m' h').2.1 ∧
        (ActionModule.getPtr_times initialize_ 2 m w).2.2 =
          { w with heap := (initialize_ m' h').2.2,
                   initialize_calls := w.initialize_calls + 2 })) ∧
    (∀ (initialize_ : BuildStep (ObservableModule O Q)) (m m' : ObservableModule O Q)
        (w : World) (h' : Heap), m.ObservablePtr.ptr = none →
      (initialize_ m w.heap = (.ok (), m', h') → m'.ObservablePtr.ptr = none →
        ObservableModule.getPtr initialize_ m w =
          (.ok none, m',
            { w with heap := h', initialize_calls := w.initialize_calls + 1 })) ∧
      (∀ e : Failure, initialize_ m w.heap = (.error e, m', h') →
        ObservableModule.getPtr initialize_ m w =
          (.error e, m',
            { w with heap := h', initialize_calls := w.initialize_calls + 1 })) ∧
      ((initialize_ m w.heap).2 = (m', h') → m'.ObservablePtr.ptr = none →
        (ObservableModule.getPtr_times initialize_ 2 m w).2.1 = (initialize_ m' h').2.1 ∧
        (ObservableModule.getPtr_times initialize_ 2 m w).2.2 =
          { w with heap := (initialize_ m' h').2.2,
                   initialize_calls := w.initialize_calls + 2 })) := by
  constructor
  · intro i m m' w h' hm
    refine ⟨fun hi hp => ?_, fun e hi => ?_, fun hi hp => ?_⟩
    · rw [ActionModule.getPtr_of_empty i m w hm, hi]; simp [Except.map, hp]
    · rw [ActionModule.getPtr_of_empty i m w hm, hi]; simp [Except.map]
    · have h1 : (i m w.heap).2.1 = m' := by rw [hi]
      have h2 : (i m w.heap).2.2 = h' := by rw [hi]
      simp [ActionModule.getPtr_times, ActionModule.getPtr_of_empty i m w hm, h1, h2,
        ActionModule.getPtr_of_empty i m' _ hp]
  · intro i m m' w h' hm
    refine ⟨fun hi hp => ?_, fun e hi => ?_, fun hi hp => ?_⟩
    · rw [ObservableModule.obs_getPtr_of_empty i m w hm, hi]; simp [Except.map, hp]
    · rw [ObservableModule.obs_getPtr_of_empty i m w hm, hi]; simp [Except.map]
    · have h1 : (i m w.heap).2.1 = m' := by rw [hi]
      have h2 : (i m w.heap).2.2 = h' := by rw [hi]
      simp [ObservableModule.getPtr_times, ObservableModule.obs_getPtr_of_empty i m w hm, h1, h2,
        ObservableModule.obs_getPtr_of_empty i m' _ hp]

/-- C6, worked example: the throwing build step on a fresh Wilson module and the
idle build step on a fresh plaquette module. -/
theorem failed_build_passes_through_and_retries_witness :
    ActionModule.getPtr exampleThrowingStep
        (ActionModule.fromPar ⟨RealD.six⟩ : QCD.WilsonGMod) World.fresh =
      (.error (.foreign "std::bad_alloc"), ActionModule.fromPar ⟨RealD.six⟩,
        { heap := ⟨0⟩, initialize_calls := 1, builder_calls := 0 }) ∧
    ObservableModule.getPtr exampleIdleStep
        (ObservableModule.fromPar ⟨"run1"⟩ : QCD.PlaquetteMod QCD.PeriodicGimplR)
        World.fresh =
      (.ok none, ObservableModule.fromPar ⟨"run1"⟩,
        { heap := ⟨0⟩, initialize_calls := 1, builder_calls := 0 }) :=
  have all := @failed_build_passes_through_and_retries
    (QCD.WilsonGaugeAction QCD.PeriodicGimplR) (QCD.PlaquetteLogger QCD.PeriodicGimplR)
    QCD.WilsonGaugeActionParameters QCD.PlaquetteObsParameters
  ⟨(all.1 exampleThrowingStep (ActionModule.fromPar ⟨RealD.six⟩) _ World.fresh ⟨0⟩ rfl).2.1
      (.foreign "std::bad_alloc") rfl,
   (all.2 exampleIdleStep (ObservableModule.fromPar ⟨"run1"⟩) _ World.fresh ⟨0⟩ rfl).1
      rfl rfl⟩

/-! ## The factory -/

theorem Factory.lookup_assign_self {β : Type} (key : String) (b : β) :
    ∀ l : List (String × β), (Factory.assign key b l).lookup key = some b
  | [] => by simp [Factory.assign, List.lookup]
  | (k, v) :: l => by
    by_cases hk : key = k
    · subst hk; simp [Factory.assign, List.lookup]
    · have hne : (key == k) = false := by simpa using hk
      simp only [Factory.assign, hne, List.lookup]
      exact Factory.lookup_assign_self key b l

theorem Factory.lookup_assign_other {β : Type} (key other : String) (b : β)
    (hne : other ≠ key) :
    ∀ l : List (String × β), (Factory.assign key b l).lookup other = l.lookup other
  | [] => by
    have h : (other == key) = false := by simpa using hne
    simp [Factory.assign, List.lookup, h]
  | (k, v) :: l => by
    by_cases hk : key = k
    · subst hk
      have h : (other == key) = false := by simpa using hne
      simp [Factory.assign, List.lookup, h]
    · have hkk : (key == k) = false := by simpa using hk
      simp only [Factory.assign, hkk, List.lookup]
      cases other == k
      · exact Factory.lookup_assign_other key other b hne l
      · rfl

theorem Factory.keys_assign_of_mem {β : Type} (key : String) (b : β) :
    ∀ l : List (String × β), key ∈ l.map Prod.fst →
      (Factory.assign key b l).map Prod.fst = l.map Prod.fst
  | [], h => by simp at h
  | (k, v) :: l, h => by
    by_cases hk : key = k
    · subst hk; simp [Factory.assign]
    · have hkk : (key == k) = false := by simpa using hk
      have hl : key ∈ l.map Prod.fst := by
        rcases List.mem_cons.1 h with e | e
        · exact absurd e hk
        · exact e
      simp only [Factory.assign, hkk, Bool.false_eq_true, if_false, List.map_cons]
      rw [Factory.keys_assign_of_mem key b l hl]

theorem Factory.mem_keys_assign {β : Type} (key : String) (b : β) :
    ∀ l : List (String × β), key ∈ (Factory.assign key b l).map Prod.fst
  | [] => by simp [Factory.assign]
  | (k, v) :: l => by
    by_cases hk : key = k
    · subst hk; simp [Factory.assign]
    · have hkk : (key == k) = false := by simpa using hk
      simp only [Factory.assign, hkk, Bool.false_eq_true, if_false, List.map_cons,
        List.mem_cons]
      exact Or.inr (Factory.mem_keys_assign key b l)

theorem Factory.lookup_eq_none_of_not_mem {β : Type} (key : String) :
    ∀ l : List (String × β), key ∉ l.map Prod.fst → l.lookup key = none
  | [], _ => rfl
  | (k, v) :: l, h => by
    have hk : key ≠ k := fun e => h (by simp [e])
    have hne : (key == k) = false := by simpa using hk
    have hl : key ∉ l.map Prod.fst := fun e => h (by simp [e])
    simp only [List.lookup, hne]
    exact Factory.lookup_eq_none_of_not_mem key l hl

theorem Factory.registerBuilder_ok {M R : Type} (f f' : Factory M R) (key : String)
    (b : Builder M R) (h : f.registerBuilder key b = (.ok (), f')) :
    f' = ⟨Factory.assign key b f.entries⟩ ∧ f'.find key = some b := by
  simp only [Factory.registerBuilder, Prod.mk.injEq, true_and] at h
  subst h
  exact ⟨rfl, Factory.lookup_assign_self key b f.entries⟩

theorem Factory.create_of_find {M R : Type} (f : Factory M R) (key : String) (b : Builder M R)
    (reader : R) (w : World) (h : f.find key = some b) :
    f.create key reader w =
      ((b reader w.heap).1,
        { w with heap := (b reader w.heap).2, builder_calls := w.builder_calls + 1 }) := by
  simp [Factory.create, h]

/-- C4. For every factory, every key that has no builder in it, every reader and
every world, `create` fails with `UnknownModuleError`; no module comes back, no
builder is invoked and the free store is untouched. -/
theorem create_unknown_key_fails {M R : Type} (f : Factory M R) (key : String) (reader : R)
    (w : World) (absent : key ∉ f.listKeys) :
    f.create key reader w = (.error .UnknownModuleError, w) := by
  have h : f.find key = none := Factory.lookup_eq_none_of_not_mem key f.entries absent
  simp [Factory.create, h]

/-- C4, worked example: asking the action factory that holds only "Wilson" for
"Symanzik". -/
theorem create_unknown_key_fails_witness :
    (__WGmodXMLInit (exampleRead QCD.WilsonGaugeActionParameters.mk) id
        Factory.empty).2.listKeys = ["Wilson"] ∧
    (__WGmodXMLInit (exampleRead QCD.WilsonGaugeActionParameters.mk) id
        Factory.empty).2.create "Symanzik" [("parameters", RealD.six)] World.fresh =
      (.error .UnknownModuleError, World.fresh) :=
  ⟨rfl, create_unknown_key_fails _ "Symanzik" [("parameters", RealD.six)] World.fresh
    (by decide)⟩

/-- C5 as stated fails. Registering "Wilson" a second time in the action
factory, with a builder that differs from the first, returns without any error,
and afterwards `create("Wilson", reader)` with `beta = 6.0` in the reader runs
the second builder (coupling 5.6), not the first (coupling 6.0, which is what
the factory made after the first registration alone). -/
theorem second_registration_is_not_rejected :
    (__WGmodXMLInit exampleReadFixed id
        (__WGmodXMLInit (exampleRead QCD.WilsonGaugeActionParameters.mk) id
          Factory.empty).2).1 = .ok () ∧
    ((__WGmodXMLInit (exampleRead QCD.WilsonGaugeActionParameters.mk) id
        Factory.empty).2.create "Wilson" [("parameters", RealD.six)] World.fresh).1 =
      .ok ⟨0, ActionModule.fromPar ⟨RealD.six⟩⟩ ∧
    ((__WGmodXMLInit exampleReadFixed id
        (__WGmodXMLInit (exampleRead QCD.WilsonGaugeActionParameters.mk) id
          Factory.empty).2).2.create "Wilson" [("parameters", RealD.six)] World.fresh).1 =
      .ok ⟨0, ActionModule.fromPar ⟨RealD.fivePointSix⟩⟩ ∧
    RealD.six ≠ RealD.fivePointSix := by
  refine ⟨rfl, rfl, rfl, by decide⟩

/-- C5, amended. A second registration under a name that a first registration
has already used, of whatever module type, returns without error and
overwrites: afterwards the name maps to the second builder, every other name
maps to what it mapped to after the first registration, and the list of keys is
the one left by the first registration. The same for two direct calls of
`registerBuilder`. -/
theorem second_registration_overwrites {T T' M R : Type}
    (construct : R → Except Failure T × R) (upcast : T → M)
    (construct' : R → Except Failure T' × R) (upcast' : T' → M)
    (b b' : Builder M R) (className other : String) (f : Factory M R)
    (distinct : other ≠ className) :
    ((Registrar construct' upcast' className
        (Registrar construct upcast className f).2).1 = .ok () ∧
      (Registrar construct' upcast' className
        (Registrar construct upcast className f).2).2.find className =
        some (Registrar.builder construct' upcast') ∧
      (Registrar construct' upcast' className
        (Registrar construct upcast className f).2).2.find other =
        (Registrar construct upcast className f).2.find other ∧
      (Registrar construct' upcast' className
        (Registrar construct upcast className f).2).2.listKeys =
        (Registrar construct upcast className f).2.listKeys) ∧
    ((((f.registerBuilder className b).2).registerBuilder className b').1 = .ok () ∧
      (((f.registerBuilder className b).2).registerBuilder className b').2.find className =
        some b' ∧
      (((f.registerBuilder className b).2).registerBuilder className b').2.find other =
        (f.registerBuilder className b).2.find other ∧
      (((f.registerBuilder className b).2).registerBuilder className b').2.listKeys =
        (f.registerBuilder className b).2.listKeys) := by
  have core : ∀ (c c' : Builder M R),
      (((f.registerBuilder className c).2).registerBuilder className c').1 = .ok () ∧
      (((f.registerBuilder className c).2).registerBuilder className c').2.find className =
        some c' ∧
      (((f.registerBuilder className c).2).registerBuilder className c').2.find other =
        (f.registerBuilder className c).2.find other ∧
      (((f.registerBuilder className c).2).registerBuilder className c').2.listKeys =
        (f.registerBuilder className c).2.listKeys := by
    intro c c'
    refine ⟨rfl, ?_, ?_, ?_⟩
    · exact Factory.lookup_assign_self className c' _
    · exact Factory.lookup_assign_other className other c' distinct _
    · exact Factory.keys_assign_of_mem className c' _
        (Factory.mem_keys_assign className c f.entries)
  exact ⟨core _ _, core b b'⟩

/-- C5, worked example: the plaquette factory holding "Plaquette" and, after
it, "Polyakov"; "Plaquette" is then registered again. Both keys stay, in the
same order, and "Polyakov" keeps its builder. -/
theorem second_registration_overwrites_witness :
    (__OBSPLmodXMLInit (exampleRead QCD.PlaquetteObsParameters.mk) id
        (Registrar (ObservableModule.fromReader (exampleRead QCD.PlaquetteObsParameters.mk)) id
          "Polyakov"
          (__OBSPLmodXMLInit (exampleRead QCD.PlaquetteObsParameters.mk) id
            Factory.empty).2).2).2.listKeys = ["Plaquette", "Polyakov"] ∧
    (__OBSPLmodXMLInit (exampleRead QCD.PlaquetteObsParameters.mk) id
        (__OBSPLmodXMLInit (exampleRead QCD.PlaquetteObsParameters.mk) id
          (Registrar
            (ObservableModule.fromReader (exampleRead QCD.PlaquetteObsParameters.mk)) id
            "Polyakov" Factory.empty).2).2).2.find "Polyakov" =
      (__OBSPLmodXMLInit (exampleRead QCD.PlaquetteObsParameters.mk) id
        (Registrar
          (ObservableModule.fromReader (exampleRead QCD.PlaquetteObsParameters.mk)) id
          "Polyakov" Factory.empty).2).2.find "Polyakov" :=
  ⟨rfl,
   (second_registration_overwrites
      (ObservableModule.fromReader (exampleRead QCD.PlaquetteObsParameters.mk)) id
      (ObservableModule.fromReader (exampleRead QCD.PlaquetteObsParameters.mk)) id
      (Registrar.builder
        (ObservableModule.fromReader (exampleRead QCD.PlaquetteObsParameters.mk)) id)
      (Registrar.builder
        (ObservableModule.fromReader (exampleRead QCD.PlaquetteObsParameters.mk)) id)
      "Plaquette" "Polyakov"
      ((Registrar
        (ObservableModule.fromReader (exampleRead QCD.PlaquetteObsParameters.mk)) id
        "Polyakov" Factory.empty).2 :
          Factory (QCD.PlaquetteMod QCD.PeriodicGimplR) (List (String × String)))
      (by decide)).1.2.2.1⟩

/-- C3. When `Registrar<T, TheFactory>(k)` has completed and left the factory
`f'`, the entry for `k` is the closure "construct a `T` from the supplied
reader", and for every reader `r`, `create(k, r)` invokes a builder exactly once
and returns what that closure returns: a `T` at a fresh address, constructed by
the reader constructor of `T` from `r` (or that constructor's exception). For
`T` an `ActionModule` or an `ObservableModule` the new module has an empty
product pointer and holds the parameters that `read` delivers for the section
"parameters" of `r`. -/
theorem registered_builder_constructs_from_reader {T M R A O P Q : Type} [Inhabited P]
    [Inhabited Q] :
    (∀ (construct : R → Except Failure T × R) (upcast : T → M) (k : String)
        (f f' : Factory M R), Registrar construct upcast k f = (.ok (), f') →
      f'.find k = some (Registrar.builder construct upcast) ∧
      ∀ (r : R) (w : World), f'.create k r w =
        match (construct r).1 with
        | .ok t =>
          (.ok ⟨w.heap.next, upcast t⟩,
            { w with heap := ⟨w.heap.next + 1⟩, builder_calls := w.builder_calls + 1 })
        | .error e => (.error e, { w with builder_calls := w.builder_calls + 1 })) ∧
    (∀ (read : ReadFn R P) (upcast : ActionModule A P → M) (k : String)
        (f f' : Factory M R),
      Registrar (ActionModule.fromReader read) upcast k f = (.ok (), f') →
      ∀ (r : R) (w : World), f'.create k r w =
        match (read r "parameters" default).1 with
        | .ok V =>
          (.ok ⟨w.heap.next,
              upcast { toParametrized := { Par_ := V, section_name := "" },
                       ActionPtr := ⟨none⟩ }⟩,
            { w with heap := ⟨w.heap.next + 1⟩, builder_calls := w.builder_calls + 1 })
        | .error e => (.error e, { w with builder_calls := w.builder_calls + 1 })) ∧
    (∀ (read : ReadFn R Q) (upcast : ObservableModule O Q → M) (k : String)
        (f f' : Factory M R),
      Registrar (ObservableModule.fromReader read) upcast k f = (.ok (), f') →
      ∀ (r : R) (w : World), f'.create k r w =
        match (read r "parameters" default).1 with
        | .ok V =>
          (.ok ⟨w.heap.next,
              upcast { toParametrized := { Par_ := V, section_name := "" },
                       ObservablePtr := ⟨none⟩ }⟩,
            { w with heap := ⟨w.heap.next + 1⟩, builder_calls := w.builder_calls + 1 })
        | .error e => (.error e, { w with builder_calls := w.builder_calls + 1 })) := by
  have key : ∀ {T0 : Type} (construct : R → Except Failure T0 × R) (upcast : T0 → M)
      (k : String) (f f' : Factory M R), Registrar construct upcast k f = (.ok (), f') →
      f'.find k = some (Registrar.builder construct upcast) ∧
      ∀ (r : R) (w : World), f'.create k r w =
        match (construct r).1 with
        | .ok t =>
          (.ok ⟨w.heap.next, upcast t⟩,
            { w with heap := ⟨w.heap.next + 1⟩, builder_calls := w.builder_calls + 1 })
        | .error e => (.error e, { w with builder_calls := w.builder_calls + 1 }) := by
    intro T0 construct upcast k f f' h
    have hf := (Factory.registerBuilder_ok f f' k _ h).2
    refine ⟨hf, fun r w => ?_⟩
    rw [Factory.create_of_find f' k _ r w hf]
    simp only [Registrar.builder, Heap.opNew]
    rcases hc : construct r with ⟨res, r'⟩
    cases res <;> rfl
  refine ⟨fun c u k f f' h => key c u k f f' h, fun read u k f f' h r w => ?_,
    fun read u k f f' h r w => ?_⟩
  · rw [(key _ u k f f' h).2 r w, ActionModule.fromReader_eq]
    simp only [Except.map]
    rcases (read r "parameters" default).1 with e | V <;> rfl
  · rw [(key _ u k f f' h).2 r w, ObservableModule.obs_fromReader_eq]
    simp only [Except.map]
    rcases (read r "parameters" default).1 with e | V <;> rfl

/-- C3, worked example: the static registration of "Wilson" in the empty action
factory, then `create("Wilson", reader)` with `beta = 6.0` in the reader. -/
theorem registered_builder_constructs_from_reader_witness :
    (__WGmodXMLInit (exampleRead QCD.WilsonGaugeActionParameters.mk) id
        Factory.empty).2.create "Wilson" [("parameters", RealD.six)] World.fresh =
      (.ok ⟨0, { toParametrized := { Par_ := ⟨RealD.six⟩, section_name := "" },
                 ActionPtr := ⟨none⟩ }⟩,
        { heap := ⟨1⟩, initialize_calls := 0, builder_calls := 1 }) :=
  have all := @registered_builder_constructs_from_reader QCD.WilsonGMod QCD.WilsonGMod
    (List (String × RealD)) (QCD.WilsonGaugeAction QCD.PeriodicGimplR)
    (QCD.PlaquetteLogger QCD.PeriodicGimplR) QCD.WilsonGaugeActionParameters
    QCD.PlaquetteObsParameters _ _
  all.2.1 (exampleRead QCD.WilsonGaugeActionParameters.mk) id "Wilson" Factory.empty _ rfl
    [("parameters", RealD.six)] World.fresh

end Grid
